import Mathlib

/-!
Shallow embedding of `src/resources/repo_test.py` (a repository verification
harness: a base test-module class with a subprocess runner, and several
concrete git/filesystem check modules), together with theorems settling the
specification claims about it.

Conventions of the embedding:
* Python exceptions are modelled with `Except PyExc`.
* The mutable run context (`repo_test_suite` object) is threaded explicitly:
  a method that mutates it returns the updated copy.
* External effects (the filesystem queried by `os.path.exists`, the git
  backend queried through GitPython, the child process spawned by
  `subprocess.Popen`) are modelled as oracle fields carried by the state:
  the embedding is parametric in their answers.
* Machine integers do not overflow in the source (exit codes, counts), so
  `Int`/`Nat` are used directly.
-/

/-- A Python exception, as far as the embedded code can raise one:
`AttributeError` (reading an attribute the object does not have),
`ValueError` (e.g. `pathlib.PurePath.relative_to` on a non-subpath). -/
inductive PyExc where
  | attributeError (attr : String)
  | valueError (msg : String)
deriving Repr, DecidableEq

/-- One diff entry of GitPython's `repo.index.diff(None)`: the path and the
change type (`'M'` for modified, etc.). -/
structure DiffItem where
  a_path : String
  change_type : String
deriving Repr, DecidableEq

/-- One commit of GitPython's `repo.iter_commits`. `committed_datetime_str`
holds the already-`strftime('%Y-%m-%d %H:%M:%S')`-formatted timestamp:
datetime formatting is external to the embedded code. -/
structure Commit where
  hexsha : String
  message : String
  committed_datetime_str : String
deriving Repr, DecidableEq

/-- The external git backend (GitPython `Repo` object / Repository Query
Facade). Each field is the oracle answer of one query the modules issue;
raw-output queries return the command's text exactly as GitPython does. -/
structure GitRepo where
  /-- `repo.git.ls_files("--others", "--exclude-standard")`: raw output
  listing untracked files, one per line. -/
  ls_files_others_exclude_standard : String
  /-- `repo.git.ls_files(path)`: raw output listing tracked files under
  `path`, one per line. -/
  ls_files_tracked : String → String
  /-- `repo.git.ls_files(path, "--others", "--ignored", "--exclude-standard")`:
  raw output listing ignored files under `path`, one per line. -/
  ls_files_ignored : String → String
  /-- `repo.git.status("--suno")`: raw output of that status invocation. -/
  status_suno : String
  /-- `repo.index.diff(None)`: the working-tree diff entries. -/
  index_diff_none : List DiffItem
  /-- `repo.iter_commits(paths=p)`: the commit history touching `p`,
  newest first. -/
  iter_commits : String → List Commit

/-- Modelled from the spec: the shared run context (`repo_test_suite` class,
whose module is imported by the driver script but is not under `src/`).
Per §3 of the design, it carries the working path, the repository root path,
the repository handle, an optional logging directory, the console-echo flag,
and accumulates the emitted informational and error lines (kept as two lists
since error lines are visually distinguished). `relative_repo_path` is the
sub-path the file-count check is configured with; `fs_exists` is the external
filesystem oracle behind `os.path.exists`; `stdout_lines` captures text sent
straight to `sys.stdout`/`print`. -/
structure repo_test_suite where
  working_path : String
  repo_root_path : String
  relative_repo_path : String
  log_dir : Option String
  print_to_stdout : Bool
  repo : GitRepo
  fs_exists : String → Bool
  messages : List String
  errors : List String
  stdout_lines : List String

namespace repo_test_suite

/-- Modelled from the spec: `repo_test_suite.print` appends one
informational line to the accumulated messages. -/
def print (rts : repo_test_suite) (msg : String) : repo_test_suite :=
  { rts with messages := rts.messages ++ [msg] }

/-- Modelled from the spec: `repo_test_suite.print_error` appends one error
line to the accumulated (visually distinguished) error messages. -/
def print_error (rts : repo_test_suite) (msg : String) : repo_test_suite :=
  { rts with errors := rts.errors ++ [msg] }

/-- A write to `sys.stdout` / a bare `print(...)`. -/
def write_stdout (rts : repo_test_suite) (line : String) : repo_test_suite :=
  { rts with stdout_lines := rts.stdout_lines ++ [line] }

end repo_test_suite

/-- The behaviour of one spawned child process (`subprocess.Popen` with
stdout and stderr merged): the sequence of output lines it produces and its
terminal exit code. -/
structure Child where
  output_lines : List String
  returncode : Int

/-- Python's `str.splitlines()` restricted to `'\n'` separators (the only
separator git output contains): splits at each newline and does not produce
a trailing empty entry for a terminal newline; the empty string yields `[]`.
`pySplitlinesGo cs acc` processes the remaining characters `cs` with the
reversed current line `acc`. -/
def pySplitlinesGo : List Char → List Char → List String
  | [], acc => [String.mk acc.reverse]
  | c :: rest, acc =>
      if c = '\n' then
        String.mk acc.reverse ::
          (if rest.isEmpty then [] else pySplitlinesGo rest [])
      else
        pySplitlinesGo rest (c :: acc)

/-- Python's `str.splitlines()` (see `pySplitlinesGo`). -/
def pySplitlines (s : String) : List String :=
  if s.data.isEmpty then [] else pySplitlinesGo s.data []

/-- Python's truthiness test `if s:` for a string: true iff non-empty. -/
def pyTruthy (s : String) : Bool := s ≠ ""

/-- Python's `str.split('\n')`, character-level worker: splits at every
newline, keeping empty fragments (in particular a trailing one). -/
def pySplitNlGo : List Char → List Char → List String
  | [], acc => [String.mk acc.reverse]
  | c :: rest, acc =>
      if c = '\n' then String.mk acc.reverse :: pySplitNlGo rest []
      else pySplitNlGo rest (c :: acc)

/-- Python's `str.split('\n')`: unlike `splitlines`, the empty string maps
to `['']` (one empty fragment) and a trailing newline yields a trailing
empty fragment. -/
def pySplitNl (s : String) : List String := pySplitNlGo s.data []

/-- The configuration the `repo_test` base-class constructor stores.
`repo_test.__init__` assigns exactly `abort_on_error` and
`process_output_filename` (the `repo_test_suite` argument and the
`self.rts` assignment are commented out in the source); consequently the
object has no `repo_test_suite` and no `log_dir` attribute. -/
structure repo_test where
  abort_on_error : Bool := true
  process_output_filename : Option String := none
deriving Repr, DecidableEq

namespace repo_test

/-- The body of `execute_command`'s streaming loop
(`for line in proc.stdout:`) for one output line: echo the line to the
console when `print_to_stdout` is set, and append it to the transcript file
(with a flush) when one is open. -/
def stream_line (st : repo_test_suite × Option (List String))
    (line : String) : repo_test_suite × Option (List String) :=
  let (rts, fp) := st
  let rts := if rts.print_to_stdout then rts.write_stdout line else rts
  let fp := if fp.isSome then fp.map (· ++ [line]) else fp
  (rts, fp)

/-- Reading `self.repo_test_suite` on a `repo_test` object (line 63 of the
source) raises `AttributeError`: the constructor never sets that attribute
(the assignment is commented out), and no other code does. -/
def getattr_repo_test_suite (_ : repo_test) : Except PyExc Unit :=
  .error (.attributeError "repo_test_suite")

/-- `repo_test.execute_command(self, repo_test_suite, proc_cmd,
process_output_filename=None)`, with the child-process behaviour supplied as
the oracle `child`. Returns the child's exit code, the updated run context,
and the transcript-file content (`none` when no transcript file was opened).
When a transcript is requested (`log_dir` and `process_output_filename` both
set), line 63 evaluates `os.path.exists(self.repo_test_suite.log_dir)`, and
the read of `self.repo_test_suite` raises `AttributeError` (see
`getattr_repo_test_suite`); the rest of that branch (`makedirs`,
`self.log_dir + '/' + ...`, `open`, the `if not fp` check) is unreachable,
so in every terminating run `fp` is still `None` after the branch. -/
def execute_command (self : repo_test) (rts : repo_test_suite)
    (proc_cmd : List String) (process_output_filename : Option String)
    (child : Child) :
    Except PyExc (Int × repo_test_suite × Option (List String)) := do
  -- fp = None
  let fp : Option (List String) := none
  -- if repo_test_suite.log_dir is not None and process_output_filename is not None:
  if rts.log_dir.isSome && process_output_filename.isSome then
    -- if not os.path.exists(self.repo_test_suite.log_dir): ...  (raises)
    let _ ← self.getattr_repo_test_suite
  let cmd_str := String.intercalate " " proc_cmd
  let message := "Executing the following command in directory:" ++
    rts.working_path ++ ":" ++ cmd_str
  let rts := rts.print message
  let fp := if fp.isSome then fp.map (· ++ [message]) else fp
  -- proc = subprocess.Popen(...); for line in proc.stdout: ...
  let (rts, fp) := child.output_lines.foldl stream_line (rts, fp)
  -- proc.communicate(); return proc.returncode
  return (child.returncode, rts, fp)

end repo_test

/-- `file_exists_test`: configuration from its constructor
(`repo_file_list`, plus the base-class fields via `super().__init__`). -/
structure file_exists_test where
  repo_file_list : List String
  abort_on_error : Bool := true
deriving Repr, DecidableEq

/-- `pathlib`'s `working_path / repo_file` as it renders in the f-strings of
the source: the two components joined by `'/'`. -/
def pathJoin (a b : String) : String := a ++ "/" ++ b

/-- The loop body of `file_exists_test.perform_test` over one configured
relative path: if `os.path.exists` is false on the joined path, report an
error line and set the running verdict to `False`; in either case then
report an informational `File exists: ...` line. -/
def file_exists_test.check_one (st : Bool × repo_test_suite)
    (repo_file : String) : Bool × repo_test_suite :=
  let (return_val, rts) := st
  let file_path := pathJoin rts.working_path repo_file
  let (return_val, rts) :=
    if !(rts.fs_exists file_path) then
      (false, rts.print_error ("File does not exist: " ++ file_path))
    else
      (return_val, rts)
  (return_val, rts.print ("File exists: " ++ file_path))

/-- `file_exists_test.perform_test`: the verdict starts `True`, the loop
body `check_one` runs once per configured path, and the final verdict is
returned. -/
def file_exists_test.perform_test (self : file_exists_test)
    (rts : repo_test_suite) : Bool × repo_test_suite :=
  self.repo_file_list.foldl file_exists_test.check_one (true, rts)

/-- `make_test`: configuration from its constructor (`make_rule`, plus the
base-class fields). -/
structure make_test where
  make_rule : String
  abort_on_error : Bool := true
  process_output_filename : Option String := none
deriving Repr, DecidableEq

/-- `make_test.__init__(make_rule, generate_output_file=True,
make_output_filename=None, abort_on_error=True)`: when an output file is
requested and no name given, the name defaults to the rule (spaces replaced
by underscores) with a `.log` suffix. -/
def make_test.init (make_rule : String) (generate_output_file : Bool := true)
    (make_output_filename : Option String := none)
    (abort_on_error : Bool := true) : make_test :=
  let make_output_filename :=
    if generate_output_file && make_output_filename.isNone then
      some (make_rule.replace " " "_" ++ ".log")
    else make_output_filename
  { make_rule := make_rule, abort_on_error := abort_on_error,
    process_output_filename := make_output_filename }

/-- `make_test.perform_test`: runs `["make", self.make_rule]` through
`execute_command` — passing no `process_output_filename` argument, so the
call's local parameter defaults to `None` — and returns `True` iff the exit
code is `0`. -/
def make_test.perform_test (self : make_test) (rts : repo_test_suite)
    (child : Child) : Except PyExc (Bool × repo_test_suite) := do
  let cmd := ["make", self.make_rule]
  let (return_val, rts, _) ←
    repo_test.execute_command
      ⟨self.abort_on_error, self.process_output_filename⟩ rts cmd none child
  if return_val ≠ 0 then
    return (false, rts)
  return (true, rts)

/-- `check_for_untracked_files`: configuration from its constructor. -/
structure check_for_untracked_files where
  ignore_ok : Bool := true
deriving Repr, DecidableEq

/-- `check_for_untracked_files.perform_test`: queries
`git ls-files --others --exclude-standard`; if the output is (truthily)
non-empty, reports a header error line and one error line per output line
and returns `False`; otherwise reports an informational line and returns
`True`. -/
def check_for_untracked_files.perform_test (_ : check_for_untracked_files)
    (rts : repo_test_suite) : Bool × repo_test_suite :=
  let untracked_files := rts.repo.ls_files_others_exclude_standard
  if pyTruthy untracked_files then
    let rts := rts.print_error "Untracked files found in repository:"
    let files := pySplitlines untracked_files
    let rts := files.foldl (fun r file => r.print_error ("  " ++ file)) rts
    (false, rts)
  else
    (true, rts.print "No untracked files found in repository")

/-- `check_for_max_repo_files`: configuration from its constructor. -/
structure check_for_max_repo_files where
  max_dir_files : Nat
deriving Repr, DecidableEq

/-- `check_for_max_repo_files.perform_test`: splits the raw
`git ls-files <relative_repo_path>` output on `'\n'` (Python `str.split`,
which maps the empty output to `['']`), takes the length of that list as the
tracked-file count, prints it, and returns `False` iff the count exceeds
`max_dir_files`. -/
def check_for_max_repo_files.perform_test (self : check_for_max_repo_files)
    (rts : repo_test_suite) : Bool × repo_test_suite :=
  let tracked_files :=
    pySplitNl (rts.repo.ls_files_tracked rts.relative_repo_path)
  let n_tracked_files := tracked_files.length
  let rts := rts.print
    (toString n_tracked_files ++ " Tracked git files in " ++
      rts.relative_repo_path)
  if n_tracked_files > self.max_dir_files then
    (false, rts.print_error "  Too many tracked files")
  else
    (true, rts)

/-- `check_for_ignored_files`: configuration from its constructor
(`check_path`, defaulting to `None`). -/
structure check_for_ignored_files where
  check_path : Option String := none
deriving Repr, DecidableEq

/-- `check_for_ignored_files.perform_test`: if `self.check_path` is `None`
it is (mutably) set to the run context's working path; then queries
`git ls-files <check_path> --others --ignored --exclude-standard` and, as in
the untracked check, returns `True` iff the output is empty, reporting every
listed file as an error line otherwise. Returns the possibly-updated module
object alongside the verdict and context. -/
def check_for_ignored_files.perform_test (self : check_for_ignored_files)
    (rts : repo_test_suite) :
    Bool × check_for_ignored_files × repo_test_suite :=
  let self :=
    if self.check_path.isNone then
      { self with check_path := some rts.working_path }
    else self
  let cp := self.check_path.getD ""
  let rts := rts.print ("Checking for ignored files at " ++ cp)
  let ignored_files := rts.repo.ls_files_ignored cp
  if pyTruthy ignored_files then
    let rts := rts.print_error "Ignored files found in repository:"
    let files := pySplitlines ignored_files
    let rts := files.foldl (fun r file => r.print_error ("  " ++ file)) rts
    (false, self, rts)
  else
    (true, self, rts.print "No ignored files found in repository")

/-- `check_for_uncommitted_files`: no configuration beyond the base class. -/
structure check_for_uncommitted_files where
  deriving Repr, DecidableEq

/-- `check_for_uncommitted_files.perform_test`: takes
`repo.index.diff(None)`, keeps the `a_path` of entries whose change type is
`'M'`, and returns `True` iff that list is empty, reporting a header error
line and one error line per modified file otherwise. -/
def check_for_uncommitted_files.perform_test (_ : check_for_uncommitted_files)
    (rts : repo_test_suite) : Bool × repo_test_suite :=
  let uncommitted_changes := rts.repo.index_diff_none
  let modified_files :=
    (uncommitted_changes.filter (fun item => item.change_type = "M")).map
      (fun item => item.a_path)
  if !modified_files.isEmpty then
    let rts := rts.print_error "Uncommitted files found in repository:"
    let rts := modified_files.foldl
      (fun r file => r.print_error ("  " ++ file)) rts
    (false, rts)
  else
    (true, rts.print "No uncommitted files found in repository")

/-- `check_number_of_files`: configuration from its constructor
(`max_files`, defaulting to `sys.maxsize`, i.e. `2^63 - 1`). -/
structure check_number_of_files where
  max_files : Nat := 9223372036854775807
deriving Repr, DecidableEq

/-- `check_number_of_files.perform_test`: despite its name and its
`max_files` configuration (which it never reads), it queries
`repo.git.status("--suno")` and returns `True` iff that output is (truthily)
empty, reporting an `Uncommitted files found in repository:` header and one
error line per output line otherwise — the body of the uncommitted-files
check over a different repository query. -/
def check_number_of_files.perform_test (_ : check_number_of_files)
    (rts : repo_test_suite) : Bool × repo_test_suite :=
  let uncommitted_files := rts.repo.status_suno
  if pyTruthy uncommitted_files then
    let rts := rts.print_error "Uncommitted files found in repository:"
    let files := pySplitlines uncommitted_files
    let rts := files.foldl (fun r file => r.print_error ("  " ++ file)) rts
    (false, rts)
  else
    (true, rts.print "No uncommitted files found in repository")

/-- `pathlib.PurePath.relative_to`: the path relative to `root` when the
path lies under `root`, a `ValueError` otherwise (equal paths yield `'.'`).
-/
def relative_to (p root : String) : Except PyExc String :=
  if p = root then .ok "."
  else if (root.data ++ ['/']).isPrefixOf p.data then
    .ok (String.mk (p.data.drop (root.data.length + 1)))
  else .error (.valueError (p ++ " is not in the subpath of " ++ root))

/-- `list_git_commits`: configuration from its constructor (`check_path`,
defaulting to `None`). -/
structure list_git_commits where
  check_path : Option String := none
deriving Repr, DecidableEq

/-- `list_git_commits.perform_test`: if `self.check_path` is `None` it is
(mutably) set to the run context's working path; computes the path relative
to the repository root (raising `ValueError` when not a subpath), prints the
commit list for that path to stdout (short hash, formatted timestamp,
stripped message), and returns `True`. -/
def list_git_commits.perform_test (self : list_git_commits)
    (rts : repo_test_suite) :
    Except PyExc (Bool × list_git_commits × repo_test_suite) := do
  let self :=
    if self.check_path.isNone then
      { self with check_path := some rts.working_path }
    else self
  let cp := self.check_path.getD ""
  let relative_path ← relative_to cp rts.repo_root_path
  let rts := rts.print ("Checking for commits at " ++ relative_path)
  let commits := rts.repo.iter_commits relative_path
  let rts := commits.foldl
    (fun r commit =>
      r.write_stdout
        (commit.hexsha.take 7 ++ " - " ++ commit.committed_datetime_str ++
          " - " ++ commit.message.trim))
    rts
  return (true, self, rts)

/-! ### Sample oracles and run contexts used in concrete evaluations -/

/-- A git backend with a clean repository: no untracked, ignored, tracked
or modified files, no status output, no commits. -/
def emptyRepo : GitRepo where
  ls_files_others_exclude_standard := ""
  ls_files_tracked := fun _ => ""
  ls_files_ignored := fun _ => ""
  status_suno := ""
  index_diff_none := []
  iter_commits := fun _ => []

/-- A concrete run context over `emptyRepo`: working path `/repo/wd` inside
repository root `/repo`, no log directory, console echo off, every
filesystem path existing, no accumulated output. -/
def baseRts : repo_test_suite where
  working_path := "/repo/wd"
  repo_root_path := "/repo"
  relative_repo_path := "wd"
  log_dir := none
  print_to_stdout := false
  repo := emptyRepo
  fs_exists := fun _ => true
  messages := []
  errors := []
  stdout_lines := []

/-! ### Projection lemmas for the run-context reporting methods -/

namespace repo_test_suite

variable (rts : repo_test_suite) (m : String)

@[simp] theorem print_working_path : (rts.print m).working_path = rts.working_path := rfl
@[simp] theorem print_repo_root_path : (rts.print m).repo_root_path = rts.repo_root_path := rfl
@[simp] theorem print_relative_repo_path : (rts.print m).relative_repo_path = rts.relative_repo_path := rfl
@[simp] theorem print_log_dir : (rts.print m).log_dir = rts.log_dir := rfl
@[simp] theorem print_print_to_stdout : (rts.print m).print_to_stdout = rts.print_to_stdout := rfl
@[simp] theorem print_repo : (rts.print m).repo = rts.repo := rfl
@[simp] theorem print_fs_exists : (rts.print m).fs_exists = rts.fs_exists := rfl
@[simp] theorem print_messages : (rts.print m).messages = rts.messages ++ [m] := rfl
@[simp] theorem print_errors : (rts.print m).errors = rts.errors := rfl
@[simp] theorem print_stdout_lines : (rts.print m).stdout_lines = rts.stdout_lines := rfl

@[simp] theorem print_error_working_path : (rts.print_error m).working_path = rts.working_path := rfl
@[simp] theorem print_error_repo_root_path : (rts.print_error m).repo_root_path = rts.repo_root_path := rfl
@[simp] theorem print_error_relative_repo_path : (rts.print_error m).relative_repo_path = rts.relative_repo_path := rfl
@[simp] theorem print_error_log_dir : (rts.print_error m).log_dir = rts.log_dir := rfl
@[simp] theorem print_error_print_to_stdout : (rts.print_error m).print_to_stdout = rts.print_to_stdout := rfl
@[simp] theorem print_error_repo : (rts.print_error m).repo = rts.repo := rfl
@[simp] theorem print_error_fs_exists : (rts.print_error m).fs_exists = rts.fs_exists := rfl
@[simp] theorem print_error_messages : (rts.print_error m).messages = rts.messages := rfl
@[simp] theorem print_error_errors : (rts.print_error m).errors = rts.errors ++ [m] := rfl
@[simp] theorem print_error_stdout_lines : (rts.print_error m).stdout_lines = rts.stdout_lines := rfl

@[simp] theorem write_stdout_messages : (rts.write_stdout m).messages = rts.messages := rfl
@[simp] theorem write_stdout_errors : (rts.write_stdout m).errors = rts.errors := rfl
@[simp] theorem write_stdout_working_path : (rts.write_stdout m).working_path = rts.working_path := rfl
@[simp] theorem write_stdout_repo : (rts.write_stdout m).repo = rts.repo := rfl

end repo_test_suite

/-! ### Helper lemmas -/

/-- `pySplitlinesGo` never returns the empty list: every branch produces at
least one line. -/
theorem pySplitlinesGo_ne_nil (cs : List Char) :
    ∀ acc, pySplitlinesGo cs acc ≠ [] := by
  induction cs with
  | nil => intro acc; simp [pySplitlinesGo]
  | cons c rest ih =>
    intro acc
    by_cases h : c = '\n' <;> simp [pySplitlinesGo, h, ih]

/-- Python `splitlines` yields the empty list exactly on the empty string. -/
theorem pySplitlines_eq_nil_iff (s : String) :
    pySplitlines s = [] ↔ s = "" := by
  unfold pySplitlines
  constructor
  · intro h
    by_cases hd : s.data.isEmpty
    · cases s with
      | mk data => cases data with
        | nil => rfl
        | cons c cs => simp at hd
    · simp [hd] at h
      exact absurd h (pySplitlinesGo_ne_nil _ _)
  · intro h
    subst h
    rfl

/-- `pyTruthy` is false exactly on the empty string. -/
theorem pyTruthy_eq_false_iff (s : String) :
    pyTruthy s = false ↔ s = "" := by
  simp [pyTruthy]

/-- Folding `print_error` with a two-space indent over a file list appends
exactly the indented lines to the error log and changes nothing else. -/
theorem foldl_print_error_indent (l : List String) (rts : repo_test_suite) :
    l.foldl (fun r file => r.print_error ("  " ++ file)) rts =
      { rts with errors := rts.errors ++ l.map (fun f => "  " ++ f) } := by
  induction l generalizing rts with
  | nil => simp
  | cons f rest ih =>
    simp only [List.foldl, List.map]
    rw [ih]
    simp [repo_test_suite.print_error]

/-- The `file_exists_test` loop, started from verdict `b` and context `rts`:
the final verdict is `b` conjoined with existence of every path, one
informational `File exists:` line is appended per path, and one
`File does not exist:` error line is appended per missing path. -/
theorem file_exists_foldl (l : List String) (b : Bool) (rts : repo_test_suite) :
    l.foldl file_exists_test.check_one (b, rts) =
      (b && l.all (fun f => rts.fs_exists (pathJoin rts.working_path f)),
       { rts with
         messages := rts.messages ++
           l.map (fun f => "File exists: " ++ pathJoin rts.working_path f),
         errors := rts.errors ++
           (l.filter (fun f => !(rts.fs_exists (pathJoin rts.working_path f)))).map
             (fun f => "File does not exist: " ++ pathJoin rts.working_path f) }) := by
  induction l generalizing b rts with
  | nil => simp
  | cons f rest ih =>
    simp only [List.foldl, List.all_cons, List.map, List.filter]
    by_cases hx : rts.fs_exists (pathJoin rts.working_path f)
    · rw [show file_exists_test.check_one (b, rts) f =
          (b, rts.print ("File exists: " ++ pathJoin rts.working_path f)) by
        simp [file_exists_test.check_one, hx]]
      rw [ih]
      simp [hx, repo_test_suite.print]
    · rw [show file_exists_test.check_one (b, rts) f =
          (false,
            (rts.print_error ("File does not exist: " ++
              pathJoin rts.working_path f)).print
              ("File exists: " ++ pathJoin rts.working_path f)) by
        simp [file_exists_test.check_one, hx]]
      rw [ih]
      simp [hx, repo_test_suite.print, repo_test_suite.print_error]

/-- The effect of the streaming loop on the run context alone: echo each
line to the console when console echo is on. -/
def echo_lines (rts : repo_test_suite) (l : List String) : repo_test_suite :=
  l.foldl (fun r line => if r.print_to_stdout then r.write_stdout line else r) rts

/-- With no transcript file open, the streaming loop only echoes lines and
keeps the transcript absent. -/
theorem stream_line_foldl_none (l : List String) (rts : repo_test_suite) :
    l.foldl repo_test.stream_line (rts, (none : Option (List String))) =
      (echo_lines rts l, none) := by
  induction l generalizing rts with
  | nil => rfl
  | cons a t ih =>
    simp only [List.foldl, echo_lines]
    rw [show repo_test.stream_line (rts, none) a =
      ((if rts.print_to_stdout then rts.write_stdout a else rts),
        (none : Option (List String))) from rfl]
    exact ih _

/-- `execute_command` with no `process_output_filename` argument (the
default `None`, as in `make_test.perform_test`): the transcript branch —
and thus the broken attribute read inside it — is skipped, the command
message is printed, the child's lines are echoed, and the child's exit code
is returned with no transcript content. -/
theorem execute_command_no_transcript (self : repo_test)
    (rts : repo_test_suite) (proc_cmd : List String) (child : Child) :
    self.execute_command rts proc_cmd none child =
      .ok (child.returncode,
        echo_lines
          (rts.print ("Executing the following command in directory:" ++
            rts.working_path ++ ":" ++ String.intercalate " " proc_cmd))
          child.output_lines,
        none) := by
  unfold repo_test.execute_command
  cases hld : rts.log_dir with
  | none =>
    rw [show ((none : Option String).isSome && (none : Option String).isSome) = false from rfl]
    simp only [Bool.false_eq_true, if_false, Option.isSome_none, pure_bind]
    rw [stream_line_foldl_none]
    rfl
  | some d =>
    rw [show ((some d).isSome && (none : Option String).isSome) = false from rfl]
    simp only [Bool.false_eq_true, if_false, Option.isSome_none, pure_bind]
    rw [stream_line_foldl_none]
    rfl

/-! ### Claim theorems -/

/-- **C1.** The claim states that for a command printing N lines and
exiting 0, a requested transcript file receives exactly those N lines and
the exit code 0 is returned. The code instead raises `AttributeError` as
soon as a transcript is requested: with a log directory configured and a
transcript filename given, `execute_command` on a child that prints two
lines and exits 0 never opens the transcript nor launches the child — it
fails at the `self.repo_test_suite` read on line 63. -/
theorem C1_transcript_request_raises :
    repo_test.execute_command {} { baseRts with log_dir := some "/repo/log" }
      ["echo", "hello"] (some "echo.log") ⟨["line one", "line two"], 0⟩ =
      .error (.attributeError "repo_test_suite") := rfl

/-- **C2.** The claim states that an unopenable transcript file makes
`execute_command` report an error to the run context and return a sentinel
negative code without launching the child. The code never reaches the
`open` call (nor the dead `if not fp: return -1` branch, which Python's
raising `open` makes unreachable anyway): requesting a transcript under an
unwritable log directory raises `AttributeError` at the
`self.repo_test_suite` read, so no error line is recorded and no `-1` is
returned. -/
theorem C2_unopenable_transcript_raises :
    repo_test.execute_command {}
      { baseRts with log_dir := some "/nonexistent-readonly" }
      ["make", "all"] (some "make.log") ⟨[], 2⟩ =
      .error (.attributeError "repo_test_suite") := rfl

/-- **C8.** For every build-rule name, run context, and child-process
behaviour, `make_test.perform_test` completes without exception and
returns `True` exactly when the child's exit code is `0` (the claim's
`exitCode == 0` verdict). -/
theorem C8_make_verdict (self : make_test) (rts : repo_test_suite)
    (child : Child) :
    ∃ rts', self.perform_test rts child =
      .ok (decide (child.returncode = 0), rts') := by
  refine ⟨echo_lines
    (rts.print ("Executing the following command in directory:" ++
      rts.working_path ++ ":" ++
      String.intercalate " " ["make", self.make_rule]))
    child.output_lines, ?_⟩
  unfold make_test.perform_test
  simp only [execute_command_no_transcript]
  by_cases h : child.returncode = 0
  · simp only [h]
    rfl
  · have hb : ∀ (k : Int × repo_test_suite × Option (List String) →
        Except PyExc (Bool × repo_test_suite)) x, Except.ok x >>= k = k x :=
      fun _ _ => rfl
    rw [hb]
    simp [h]
    rfl

/-- **C10.** `file_exists_test.perform_test` emits the informational line
`File exists: <working path>/<file>` once for every configured path — also
for the missing ones, for which it has just emitted a
`File does not exist:` error line (second conjunct). -/
theorem C10_info_line_every_path (self : file_exists_test)
    (rts : repo_test_suite) :
    (self.perform_test rts).2.messages =
      rts.messages ++ self.repo_file_list.map
        (fun f => "File exists: " ++ pathJoin rts.working_path f) ∧
    (self.perform_test rts).2.errors =
      rts.errors ++ (self.repo_file_list.filter
        (fun f => !(rts.fs_exists (pathJoin rts.working_path f)))).map
        (fun f => "File does not exist: " ++ pathJoin rts.working_path f) := by
  unfold file_exists_test.perform_test
  rw [file_exists_foldl]
  exact ⟨rfl, rfl⟩

/-- **C6.** `file_exists_test.perform_test` returns `True` exactly when
every configured relative path exists under the working path (first
conjunct), and on the single missing path `missing.txt` in a directory
without it the verdict is `False` and exactly one error line is reported,
naming `missing.txt` (second conjunct, at a concrete context whose
filesystem oracle holds no file). -/
theorem C6_file_exists_verdict :
    (∀ (self : file_exists_test) (rts : repo_test_suite),
        (self.perform_test rts).1 = true ↔
          ∀ f ∈ self.repo_file_list,
            rts.fs_exists (pathJoin rts.working_path f) = true) ∧
    ((file_exists_test.perform_test ⟨["missing.txt"], true⟩
        { baseRts with fs_exists := fun _ => false }).1 = false ∧
      (file_exists_test.perform_test ⟨["missing.txt"], true⟩
        { baseRts with fs_exists := fun _ => false }).2.errors =
        ["File does not exist: /repo/wd/missing.txt"]) := by
  refine ⟨fun self rts => ?_, rfl, rfl⟩
  unfold file_exists_test.perform_test
  rw [file_exists_foldl]
  simp [List.all_eq_true]

/-- **C5 (counterexample).** The claim says the verdict is `true` iff the
number of tracked paths under the sub-path is at most the configured
maximum, "including the case of zero tracked paths". With zero tracked
paths (the `ls-files` query returns the empty output, so the tracked path
list is empty) and maximum `0`, the count `0` does not exceed `0`, yet
`check_for_max_repo_files.perform_test` returns `False`: `''.split('\n')`
is `['']`, so the code counts one file. -/
theorem C5_zero_tracked_files_fails :
    (check_for_max_repo_files.perform_test ⟨0⟩ baseRts).1 = false ∧
    pySplitlines (baseRts.repo.ls_files_tracked baseRts.relative_repo_path)
      = [] := ⟨rfl, rfl⟩

/-- **C5 (amended).** `check_for_max_repo_files.perform_test` returns
`true` iff the number of newline-separated fields of the raw
`ls-files` output (Python `split('\n')`, which counts an empty output as
one field) does not exceed the configured maximum; for non-empty output
with no trailing newline this is the tracked-path count, but zero tracked
paths count as `1`. -/
theorem C5_amended_split_count (self : check_for_max_repo_files)
    (rts : repo_test_suite) :
    (self.perform_test rts).1 = true ↔
      (pySplitNl (rts.repo.ls_files_tracked rts.relative_repo_path)).length ≤
        self.max_dir_files := by
  simp only [check_for_max_repo_files.perform_test]
  by_cases hgt : (pySplitNl
      (rts.repo.ls_files_tracked rts.relative_repo_path)).length >
      self.max_dir_files
  · simp [hgt]
  · simp [hgt]
    omega

/-- **C7.** For every repository state, the untracked-files check and the
ignored-files check each return `True` exactly when the path list produced
by their repository query (`splitlines` of the raw output) is empty, and
when it is not, the error lines reported are a header followed by one line
per listed path (for the ignored check, the query runs at the configured
check path, defaulting to the working path). -/
theorem C7_empty_query_iff (u : check_for_untracked_files)
    (g : check_for_ignored_files) (rts : repo_test_suite) :
    (((u.perform_test rts).1 = true ↔
        pySplitlines rts.repo.ls_files_others_exclude_standard = []) ∧
      (u.perform_test rts).2.errors = rts.errors ++
        (if rts.repo.ls_files_others_exclude_standard = "" then []
         else "Untracked files found in repository:" ::
           (pySplitlines rts.repo.ls_files_others_exclude_standard).map
             (fun f => "  " ++ f))) ∧
    (((g.perform_test rts).1 = true ↔
        pySplitlines
          (rts.repo.ls_files_ignored (g.check_path.getD rts.working_path))
          = []) ∧
      (g.perform_test rts).2.2.errors = rts.errors ++
        (if rts.repo.ls_files_ignored (g.check_path.getD rts.working_path)
            = "" then []
         else "Ignored files found in repository:" ::
           (pySplitlines (rts.repo.ls_files_ignored
              (g.check_path.getD rts.working_path))).map
             (fun f => "  " ++ f))) := by
  constructor
  · simp only [check_for_untracked_files.perform_test]
    by_cases hs : rts.repo.ls_files_others_exclude_standard = ""
    · simp [pyTruthy, hs, pySplitlines_eq_nil_iff]
    · have ht : pyTruthy rts.repo.ls_files_others_exclude_standard = true := by
        simp [pyTruthy, hs]
      simp only [ht, if_true, foldl_print_error_indent]
      simp [hs, pySplitlines_eq_nil_iff, repo_test_suite.print_error]
  · simp only [check_for_ignored_files.perform_test]
    have hcp : (if g.check_path.isNone = true then
        ({ check_path := some rts.working_path } : check_for_ignored_files)
      else g).check_path.getD "" = g.check_path.getD rts.working_path := by
      cases h : g.check_path <;> simp [h]
    rw [hcp]
    simp only [repo_test_suite.print_repo]
    by_cases hs : rts.repo.ls_files_ignored (g.check_path.getD rts.working_path) = ""
    · simp [pyTruthy, hs, pySplitlines_eq_nil_iff]
    · have ht : pyTruthy (rts.repo.ls_files_ignored
          (g.check_path.getD rts.working_path)) = true := by
        simp [pyTruthy, hs]
      simp only [ht, if_true, foldl_print_error_indent]
      simp [hs, pySplitlines_eq_nil_iff, repo_test_suite.print_error,
        repo_test_suite.print]

/-- **C3 (counterexample).** The claim says the configuration fields of a
module are never modified after construction. A `check_for_ignored_files`
module constructed with `check_path = None` has its `check_path` field
overwritten by `perform_test`: after one call on `baseRts` it holds the run
context's working path, not the `None` it was constructed with. -/
theorem C3_check_path_mutated :
    (check_for_ignored_files.perform_test ⟨none⟩ baseRts).2.1.check_path ≠
      (⟨none⟩ : check_for_ignored_files).check_path := by
  simp [check_for_ignored_files.perform_test, baseRts, emptyRepo, pyTruthy]

/-- **C3 (amended).** A module's configuration is unchanged by
`perform_test` whenever `check_path` was set (non-`None`) at construction;
when it was `None`, the call sets `check_path` to the run context's
working path (for `check_for_ignored_files` directly, and for
`list_git_commits` in every run that returns, i.e. whose path resolution
does not raise). -/
theorem C3_amended_config_frame (p : String) (rts : repo_test_suite) :
    (check_for_ignored_files.perform_test ⟨some p⟩ rts).2.1 =
      (⟨some p⟩ : check_for_ignored_files) ∧
    (list_git_commits.perform_test ⟨some p⟩ rts).map (fun r => r.2.1) =
      (list_git_commits.perform_test ⟨some p⟩ rts).map
        (fun _ => (⟨some p⟩ : list_git_commits)) ∧
    (check_for_ignored_files.perform_test ⟨none⟩ rts).2.1 =
      (⟨some rts.working_path⟩ : check_for_ignored_files) ∧
    (list_git_commits.perform_test ⟨none⟩ rts).map (fun r => r.2.1) =
      (list_git_commits.perform_test ⟨none⟩ rts).map
        (fun _ => (⟨some rts.working_path⟩ : list_git_commits)) := by
  refine ⟨?_, ?_, ?_, ?_⟩
  · simp only [check_for_ignored_files.perform_test]
    split
    · rename_i h
      simp at h
    · split <;> rfl
  · simp only [list_git_commits.perform_test]
    split
    · rename_i h
      simp at h
    · cases hrel : relative_to ((some p).getD "") rts.repo_root_path <;> rfl
  · simp only [check_for_ignored_files.perform_test]
    split
    · split <;> rfl
    · rename_i h
      simp at h
  · simp only [list_git_commits.perform_test]
    split
    · cases hrel :
          relative_to ((some rts.working_path).getD "") rts.repo_root_path <;>
        rfl
    · rename_i h
      simp at h

/-- **C4 (counterexample).** The claim says `check_number_of_files` and
`check_for_uncommitted_files` produce the same verdict on every repository
state. They consult different queries — `git status --suno` versus
`repo.index.diff(None)` — so on a repository whose status query reports
nothing while its index diff holds one modified file `f.txt`, the first
returns `True` and the second returns `False`. -/
theorem C4_checks_diverge :
    (check_number_of_files.perform_test ⟨20⟩
        { baseRts with
          repo := { emptyRepo with index_diff_none := [⟨"f.txt", "M"⟩] } }).1
      = true ∧
    (check_for_uncommitted_files.perform_test ⟨⟩
        { baseRts with
          repo := { emptyRepo with index_diff_none := [⟨"f.txt", "M"⟩] } }).1
      = false := ⟨rfl, rfl⟩

/-- `pySplitlines` of the empty string is the empty list. -/
theorem pySplitlines_empty : pySplitlines "" = [] := rfl

/-- Prefixing a string with the two-space indent is injective. -/
theorem indent_injective :
    Function.Injective (fun f => "  " ++ f : String → String) := by
  intro a b h
  have hd : "  ".data ++ a.data = "  ".data ++ b.data :=
    congrArg String.data h
  exact String.ext (List.append_cancel_left hd)

/-- A non-nil list has `isEmpty = false`. -/
theorem isEmpty_false_of_ne_nil {α : Type} {l : List α} (h : l ≠ []) :
    l.isEmpty = false := by
  cases l with
  | nil => exact absurd rfl h
  | cons a t => rfl

/-- **C4 (amended).** The two checks share the report format and the
verdict rule (fail exactly when their query is non-empty, reporting an
`Uncommitted files found` header plus one indented line per entry), but
over different queries: the two `perform_test` calls return identical
verdicts and identical updated run contexts exactly when the line list of
the `git status --suno` output coincides with the modified-file list of
`repo.index.diff(None)` (both directions: coinciding queries give equal
results, and equal results force the queries to coincide, since the
verdicts separate empty from non-empty and the indented error lines
determine the lists). `check_number_of_files` never reads its `max_files`
configuration. -/
theorem C4_amended_same_query_same_result (m1 : check_number_of_files)
    (m2 : check_for_uncommitted_files) (rts : repo_test_suite) :
    m1.perform_test rts = m2.perform_test rts ↔
      pySplitlines rts.repo.status_suno =
        (rts.repo.index_diff_none.filter
          (fun item => item.change_type = "M")).map (fun item => item.a_path)
    := by
  simp only [check_number_of_files.perform_test,
    check_for_uncommitted_files.perform_test]
  by_cases hs : rts.repo.status_suno = ""
  all_goals by_cases hL : (rts.repo.index_diff_none.filter
      (fun item => item.change_type = "M")).map (fun item => item.a_path) = []
  · simp [pyTruthy, hs, hL, pySplitlines_empty]
  · simp [pyTruthy, hs, isEmpty_false_of_ne_nil hL, pySplitlines_empty,
      Ne.symm hL]
  · simp [pyTruthy, hs, hL, pySplitlines_eq_nil_iff]
  · have ht1 : pyTruthy rts.repo.status_suno = true := by
      simp [pyTruthy, hs]
    simp only [ht1, isEmpty_false_of_ne_nil hL, Bool.not_false, if_true]
    constructor
    · intro h
      have h2 := congrArg Prod.snd h
      rw [foldl_print_error_indent, foldl_print_error_indent] at h2
      have h3 : (rts.print_error
            "Uncommitted files found in repository:").errors ++
            (pySplitlines rts.repo.status_suno).map (fun f => "  " ++ f) =
          (rts.print_error
            "Uncommitted files found in repository:").errors ++
            ((rts.repo.index_diff_none.filter
              (fun item => item.change_type = "M")).map
              (fun item => item.a_path)).map (fun f => "  " ++ f) :=
        congrArg repo_test_suite.errors h2
      exact List.map_injective_iff.mpr indent_injective
        (List.append_cancel_left h3)
    · intro h
      rw [h]

/-- **C9.** `list_git_commits.perform_test` returns `True` for every run
context — hence for every repository state and every commit history,
including an empty one — whenever its effective check path (the configured
one, defaulting to the working path) resolves against the repository root,
which the spec's "queries history for a sub-path" presupposes. -/
theorem C9_list_commits_always_true (self : list_git_commits)
    (rts : repo_test_suite) (rp : String)
    (h : relative_to (self.check_path.getD rts.working_path)
      rts.repo_root_path = .ok rp) :
    ∃ m rts', self.perform_test rts = .ok (true, m, rts') := by
  simp only [list_git_commits.perform_test]
  cases hcp : self.check_path with
  | none =>
    rw [hcp] at h
    simp only [Option.isNone_none, if_true, Option.getD_some]
    simp only [Option.getD_none] at h
    rw [h]
    exact ⟨_, _, rfl⟩
  | some p =>
    rw [hcp] at h
    simp only [hcp, Option.isNone_some, Bool.false_eq_true, if_false,
      Option.getD_some]
    simp only [Option.getD_some] at h
    rw [h]
    exact ⟨_, _, rfl⟩

/-- **C9 (witness).** On `baseRts` (empty commit history) with check path
`/repo/wd` under root `/repo`, the resolution succeeds and the verdict is
`True`. -/
theorem C9_list_commits_witness :
    ∃ m rts', list_git_commits.perform_test ⟨some "/repo/wd"⟩ baseRts =
      .ok (true, m, rts') :=
  C9_list_commits_always_true ⟨some "/repo/wd"⟩ baseRts "wd" rfl
